import Mathlib

/-!
Verification of the sisi_mcp changepoint-detection pipeline.

This file gives a shallow embedding, in Lean 4, of the core of the
repository: the `ChangePointDetector` class
(`mcp_conductor/detector/generic/changepoints.py`), the congestion
classifier inlined in `plot_ship_congestion.py`, the windowed loader and
engine in `pipe_detect_engine.py`, the explanation chain in
`entry/main_traffic_detect.py`, and the helper `remove_think_tag` in
`resources/tools.py`.

Modelling conventions:
* Python floats are modelled as exact rationals (`ℚ`).
* Python dicts returned by `detect` are modelled as a structure
  (`DetectResult`); the success dict carries a `method` key and the error
  dicts do not, hence `method : Option String`.
* Python exceptions are modelled with `Except String`: `.error` is a
  raised exception, `.ok` a normal return.
* The third-party `ruptures` segmentation library is external to the
  repository.  Its algorithm objects are modelled as an abstract oracle
  `RupturesCall → Except String (List Nat)` which every theorem takes as a
  parameter; hypotheses on the oracle state only what the library
  documents (its `predict` returns a strictly increasing list of indices
  whose last element is the number of samples, and constructing an
  algorithm with an unsupported cost-model name raises).
-/

namespace SisiMcp

/-- A Python value stored in the detector's `penalty` attribute: either the
string `'default'` (or any other string) or a number. -/
inductive Pen where
  | str (s : String)
  | num (q : ℚ)
deriving DecidableEq

/-- The argument handed to `ruptures` `predict`: `n_bkps=…`, `pen=…`
(numeric), or a non-numeric `pen=…` (a string, which the library would
reject). -/
inductive PredictArg where
  | nbkps (n : Nat)
  | pen (q : ℚ)
  | penStr (s : String)
deriving DecidableEq

/-- Which `ruptures` algorithm class the detector instantiates. -/
inductive RupturesAlgo where
  | dynp | pelt | binseg | bottomup | window
deriving DecidableEq

/-- A fully-determined invocation of a `ruptures` algorithm: constructor
arguments, the fitted signal and the `predict` argument. -/
structure RupturesCall where
  algo : RupturesAlgo
  model : String
  min_size : Nat
  jump : Option Nat
  width : Option Nat
  signal : List ℚ
  arg : PredictArg
deriving DecidableEq

/-- The behaviour of the external ruptures library on one call:
`.ok bkps` is the breakpoint list returned by `predict`, `.error` a raised
exception (e.g. an unsupported cost-model name). -/
def RupturesOracle : Type := RupturesCall → Except String (List Nat)

/-- The dict returned by `ChangePointDetector.detect`.  The error dicts in
the Python code have no `'method'` key, hence `method : Option String`. -/
structure DetectResult where
  change_points : List Nat
  status : String
  method : Option String
  message : String
deriving DecidableEq

/-- The attribute state of a `ChangePointDetector` instance, as set up by
`__init__` from the config dict. -/
structure Detector where
  method : String
  model : String
  min_size : Nat
  penalty : Pen
  n_bkps : Nat
  jump : Nat
  width : Nat
deriving DecidableEq

/-- A detector built from a config dict: fields not present in the config
take the defaults of `__init__` (`method='pelt'`, `model='l2'`,
`min_size=3`, `penalty='default'`, `n_bkps=3`, `jump=5`, `width=5`). -/
def Detector.default : Detector :=
  { method := "pelt", model := "l2", min_size := 3,
    penalty := Pen.str "default", n_bkps := 3, jump := 5, width := 5 }

/-- The `valid_methods` list of `set_method`. -/
def valid_methods : List String := ["bic", "pelt", "binseg", "bottomup", "window"]

/-- The `valid_models` list of `set_model`. -/
def valid_models : List String := ["l1", "l2", "rbf", "linear", "normal", "ar"]

/-- Python `int(q)`: truncation toward zero. -/
def py_int (q : ℚ) : ℤ := if 0 ≤ q then ⌊q⌋ else ⌈q⌉

/-- Lines 81–86 of `_detect_bic`: the target breakpoint count.  For a
numeric penalty it is `max(1, min(10, int(10/penalty)))`; otherwise the
configured `n_bkps`. -/
def bic_n_bkps (penalty : Pen) (n_bkps : Nat) : Nat :=
  match penalty with
  | Pen.num q => (max 1 (min 10 (py_int (10 / q)))).toNat
  | Pen.str _ => n_bkps

/-- The spec's formula for the same quantity, written from its words:
"clamped to [1,10] via `round(10/penalty)`".  Kept separate from
`bic_n_bkps` so the two can be compared. -/
def spec_bic_n_bkps (penalty : ℚ) : ℤ :=
  max 1 (min 10 (round ((10 : ℚ) / penalty)))

/-- The tail of every `_detect_*` helper:
`if changes and changes[-1] == len(signal): changes = changes[:-1]`.
`changes.getLast? = some n` implies the list is nonempty, matching the
truthiness test on `changes`. -/
def strip_trailing (changes : List Nat) (n : Nat) : List Nat :=
  if changes.getLast? = some n then changes.dropLast else changes

/-- The ruptures call made by `_detect_bic`:
`rpt.Dynp(model=…, min_size=…)`, `predict(n_bkps=…)`. -/
def bic_call (d : Detector) (signal : List ℚ) : RupturesCall :=
  { algo := RupturesAlgo.dynp, model := d.model, min_size := d.min_size,
    jump := none, width := none, signal := signal,
    arg := PredictArg.nbkps (bic_n_bkps d.penalty d.n_bkps) }

/-- The `pen` argument of `_detect_pelt`: `3` when `penalty == 'default'`,
otherwise the attribute value itself (a non-numeric string is passed
through unchanged). -/
def pelt_pen (penalty : Pen) : PredictArg :=
  match penalty with
  | Pen.str s => if s = "default" then PredictArg.pen 3 else PredictArg.penStr s
  | Pen.num q => PredictArg.pen q

/-- The ruptures call made by `_detect_pelt`:
`rpt.Pelt(model=…, min_size=…)`, `predict(pen=…)`. -/
def pelt_call (d : Detector) (signal : List ℚ) : RupturesCall :=
  { algo := RupturesAlgo.pelt, model := d.model, min_size := d.min_size,
    jump := none, width := none, signal := signal, arg := pelt_pen d.penalty }

/-- The ruptures call made by `_detect_binary_segmentation`:
`rpt.Binseg(model=…, min_size=…, jump=…)`, `predict(n_bkps=…)`. -/
def binseg_call (d : Detector) (signal : List ℚ) : RupturesCall :=
  { algo := RupturesAlgo.binseg, model := d.model, min_size := d.min_size,
    jump := some d.jump, width := none, signal := signal,
    arg := PredictArg.nbkps d.n_bkps }

/-- The ruptures call made by `_detect_bottom_up`:
`rpt.BottomUp(model=…, min_size=…, jump=…)`, `predict(n_bkps=…)`. -/
def bottomup_call (d : Detector) (signal : List ℚ) : RupturesCall :=
  { algo := RupturesAlgo.bottomup, model := d.model, min_size := d.min_size,
    jump := some d.jump, width := none, signal := signal,
    arg := PredictArg.nbkps d.n_bkps }

/-- The ruptures call made by `_detect_window`:
`rpt.Window(width=…, model=…, min_size=…)`, `predict(n_bkps=…)`. -/
def window_call (d : Detector) (signal : List ℚ) : RupturesCall :=
  { algo := RupturesAlgo.window, model := d.model, min_size := d.min_size,
    jump := none, width := some d.width, signal := signal,
    arg := PredictArg.nbkps d.n_bkps }

/-- A `_detect_*` helper: run the ruptures call, then strip the trailing
index equal to the signal length.  An exception from the library (bad
model, bad segmentation parameters, …) propagates. -/
def run_detect_helper (oracle : RupturesOracle) (c : RupturesCall) :
    Except String (List Nat) :=
  match oracle c with
  | Except.error e => Except.error e
  | Except.ok changes => Except.ok (strip_trailing changes c.signal.length)

/-- The short-series error dict of `detect`. -/
def short_error : DetectResult :=
  { change_points := [], status := "error", method := none,
    message := "Time series too short" }

/-- The unknown-method error dict of `detect`. -/
def unknown_method_error (m : String) : DetectResult :=
  { change_points := [], status := "error", method := none,
    message := "Unknown method: " ++ m }

/-- One dispatched branch of `detect`: run the `_detect_*` helper and wrap
its list in the success dict, or propagate the raised exception. -/
def run_method (oracle : RupturesOracle) (d : Detector) (c : RupturesCall) :
    Except String DetectResult :=
  match run_detect_helper oracle c with
  | Except.error e => Except.error e
  | Except.ok cps =>
      Except.ok { change_points := cps, status := "success",
                  method := some d.method, message := "" }

/-- Embedding of `ChangePointDetector.detect` (lines 33–64): the short-series check,
the five-way dispatch on `self.method`, the unknown-method error dict, and
the success dict.  The ruptures algorithms themselves are the `oracle`. -/
def detect (oracle : RupturesOracle) (d : Detector) (signal : List ℚ) :
    Except String DetectResult :=
  if signal.length < d.min_size then
    Except.ok short_error
  else if d.method = "bic" then run_method oracle d (bic_call d signal)
  else if d.method = "pelt" then run_method oracle d (pelt_call d signal)
  else if d.method = "binseg" then run_method oracle d (binseg_call d signal)
  else if d.method = "bottomup" then run_method oracle d (bottomup_call d signal)
  else if d.method = "window" then run_method oracle d (window_call d signal)
  else Except.ok (unknown_method_error d.method)

/-- Embedding of `set_method` (lines 189–199): validates against `valid_methods`,
raising `ValueError` for anything else. -/
def set_method (d : Detector) (m : String) : Except String Detector :=
  if m ∈ valid_methods then Except.ok { d with method := m }
  else Except.error "ValueError: Method must be one of valid_methods"

/-- Embedding of `set_model` (lines 201–211): validates against `valid_models`,
raising `ValueError` for anything else. -/
def set_model (d : Detector) (m : String) : Except String Detector :=
  if m ∈ valid_models then Except.ok { d with model := m }
  else Except.error "ValueError: Model must be one of valid_models"

/-- The effect of `set_params(param=value)` (lines 213–222) on the two
string-typed attributes: `hasattr` is true for `method` and `model`, so
the value is assigned with no validation; any other keyword leaves these
two fields unchanged (unknown names are silently ignored, and the
remaining attributes are numeric and do not affect `method`/`model`). -/
def set_params_str (d : Detector) (param : String) (value : String) : Detector :=
  if param = "method" then { d with method := value }
  else if param = "model" then { d with model := value }
  else d

/-! ### Congestion classifier (`plot_ship_congestion.py`, lines 91–98) -/

/-- Embedding of `np.mean` on a list of numbers, as an exact rational.  (The mean of an
empty list is the junk value `0/0 = 0`; the classifier is only evaluated
on nonempty slices.) -/
def npMean (l : List ℚ) : ℚ := l.sum / l.length

/-- The Python slice `l[s:e]` for `0 ≤ s ≤ e`. -/
def py_slice (l : List ℚ) (s e : Nat) : List ℚ := (l.drop s).take (e - s)

/-- Lines 95–97 of `plot_ship_congestion`: a segment `[s:e)` of the ship
counts is highlighted as congested when
`np.mean(ship_counts[s:e]) > np.mean(ship_counts) * 1.1`. -/
def classify_segment (values : List ℚ) (s e : Nat) : Bool :=
  decide (npMean (py_slice values s e) > npMean values * (11 / 10 : ℚ))

/-! ### Windowed loader and engine (`pipe_detect_engine.py`) -/

/-- One row of the persisted `ship_cnt_in_pipe` table. -/
structure ShipRow where
  date_id : Nat
  pipe_name : String
  ship_cnt : ℚ
deriving DecidableEq

/-- Embedding of `SELECT * FROM ship_cnt_in_pipe WHERE pipe_name = '…'`: the query has
no ORDER BY, so rows come back in the store's own order. -/
def read_sql_pipe (store : List ShipRow) (pipe : String) : List ShipRow :=
  store.filter (fun r => r.pipe_name = pipe)

/-- The date-window filter of lines 52–54:
`(date_id >= start_date_id) & (date_id <= run_date_id)` (both inclusive).
The bounds `start_date_id`/`run_date_id` are the `YYYYMMDD` integers that
lines 47–50 compute from `run_date` minus the lookback via the external
`datetime`/`pandas` calendar arithmetic; they are taken here as inputs. -/
def window_filter (rows : List ShipRow) (start_date_id run_date_id : Nat) :
    List ShipRow :=
  rows.filter (fun r => decide (start_date_id ≤ r.date_id) &&
    decide (r.date_id ≤ run_date_id))

/-- The loader region of `pipe_detect_engine` (lines 34–57): read the
channel's rows, raise `ValueError` when the channel has no rows at all,
otherwise keep the rows inside the inclusive date window.  (`groupby` on
the single-channel frame yields one group and preserves row order within
it.) -/
def load_window (store : List ShipRow) (pipe : String)
    (start_date_id run_date_id : Nat) : Except String (List ShipRow) :=
  let df := read_sql_pipe store pipe
  if df.length = 0 then
    Except.error ("ValueError: there is no pipe ship cnt data for " ++ pipe)
  else
    Except.ok (window_filter df start_date_id run_date_id)

/-- Embedding of `pipe_detect_engine` (lines 11–63) as a whole.  After the loader: an
empty window group is skipped (`continue`), leaving the result dict with
no entry for the channel; a nonempty group reaches
`detector.detect(group["ship_cnt"].tolist(), pipe_name=pipe_name)`, which
raises `TypeError` because `ChangePointDetector.detect(self, value)`
accepts no `pipe_name` argument. -/
def pipe_detect_engine (store : List ShipRow) (pipe : String)
    (start_date_id run_date_id : Nat) :
    Except String (List (String × List ShipRow)) :=
  match load_window store pipe start_date_id run_date_id with
  | Except.error e => Except.error e
  | Except.ok group =>
      if group.length = 0 then Except.ok []
      else Except.error
        "TypeError: detect() got an unexpected keyword argument pipe_name"

/-! ### `remove_think_tag` (`resources/tools.py`, lines 14–16) -/

/-- Scan for the first occurrence of `"</think>"`; return the characters
after it, or `none` when the closing tag never occurs. -/
def after_close_think : List Char → Option (List Char)
  | [] => none
  | c :: tl =>
      if List.isPrefixOf "</think>".data (c :: tl) then some ((c :: tl).drop 8)
      else after_close_think tl

/-- One pass of `re.sub(r'<think>.*?</think>', '', content, flags=DOTALL)`
driven by a fuel counter: at each position, if `"<think>"` starts here and
a `"</think>"` follows, the leftmost-shortest match is deleted and
scanning resumes after it; if no closing tag follows, no further match is
possible and the rest is kept. -/
def strip_think_go (fuel : Nat) (cs : List Char) : List Char :=
  match fuel, cs with
  | 0, rest => rest
  | _ + 1, [] => []
  | fuel + 1, c :: tl =>
      if List.isPrefixOf "<think>".data (c :: tl) then
        match after_close_think (tl.drop 6) with
        | some rest => strip_think_go fuel rest
        | none => c :: tl
      else c :: strip_think_go fuel tl

/-- ASCII whitespace as removed by Python `str.strip()` (which also strips
some Unicode spaces; the strings here are ASCII-framed). -/
def is_py_space (c : Char) : Bool :=
  c = ' ' || c = '\t' || c = '\n' || c = '\x0d' || c = '\x0b' || c = '\x0c'

/-- Python `str.strip()`: drop leading and trailing whitespace. -/
def py_strip (cs : List Char) : List Char :=
  ((cs.dropWhile is_py_space).reverse.dropWhile is_py_space).reverse

/-- Embedding of `remove_think_tag`: delete every non-greedy `<think>…</think>` block,
then `str.strip()` the result. -/
def remove_think_tag (content : String) : String :=
  String.mk (py_strip (strip_think_go content.data.length content.data))

/-! ### Explanation chain (`entry/main_traffic_detect.py`) -/

/-- Modelled from the spec: the prompt template
`mcp_conductor.templates.questions.WEB_SEARCH_WEATHER_NEWS` is not among
the provided sources; per the spec it is "a fixed natural-language prompt
template embedding the event's date and channel name", formatted with
`date_id` and `pipe_name`. -/
def web_search_weather_news (date_id : Nat) (pipe_name : String) : String :=
  "weather and news around " ++ pipe_name ++ " on " ++ toString date_id

/-- What `analyze_congestion` produces, together with the questions it
sent to each external service.  An element of `ds_calls` is one
`DeepSeekClient.search_and_ask` HTTP request, an element of `sisi_calls`
one `SISIClient.search_and_ask` HTTP request. -/
structure AnalyzeOut where
  text : String
  ds_calls : List String
  sisi_calls : List String
deriving DecidableEq

/-- Embedding of `analyze_congestion` (lines 19–60).  The two clients are modelled as
functions from the question to the extracted answer text
(`response["choices"][0]["message"]["content"]`).  The empty-frame branch
only prints: the code then still evaluates `changepoints.iloc[[-1], :]`,
which raises `IndexError` on an empty frame.  Otherwise the single last
row is processed: one DeepSeek request, one SISI request with the
DeepSeek answer forwarded verbatim, and the think-tag-stripped SISI
answer is returned. -/
def analyze_congestion (ds sisi : String → String)
    (changepoints : List ShipRow) : Except String AnalyzeOut :=
  match changepoints.getLast? with
  | none => Except.error "IndexError: positional indexers are out-of-bounds"
  | some row =>
      let question := web_search_weather_news row.date_id row.pipe_name
      let weather_news_text := ds question
      let summary_text := remove_think_tag (sisi weather_news_text)
      Except.ok { text := summary_text, ds_calls := [question],
                  sisi_calls := [weather_news_text] }

/-- Embedding of `trigger_traffic_detect` (lines 71–75): run the engine, index the
result dict with the channel name (`KeyError` when the key is absent),
then run `analyze_congestion` on the channel's changepoint rows. -/
def trigger_traffic_detect (ds sisi : String → String) (store : List ShipRow)
    (pipe : String) (start_date_id run_date_id : Nat) : Except String String :=
  match pipe_detect_engine store pipe start_date_id run_date_id with
  | Except.error e => Except.error e
  | Except.ok results =>
      match results.lookup pipe with
      | none => Except.error ("KeyError: " ++ pipe)
      | some rows =>
          match analyze_congestion ds sisi rows with
          | Except.error e => Except.error e
          | Except.ok out => Except.ok out.text

/-! ### Substring containment (for "message contains …") -/

/-- Whether `pat` occurs as a contiguous run inside `cs`. -/
def chars_has (pat : List Char) : List Char → Bool
  | [] => pat.isEmpty
  | c :: tl => List.isPrefixOf pat (c :: tl) || chars_has pat tl

/-- Whether `pat` occurs as a substring of `s` (Python `pat in s`). -/
def str_has (s pat : String) : Bool := chars_has pat.data s.data

/-! ### External ruptures cost factory (modelled) -/

/-- Modelled from the spec: the cost-model names the external ruptures
cost factory accepts ("sum-of-absolute-deviations, sum-of-squared-
deviations, kernel-based, and a small set of named alternatives").  The
library itself is not part of the repository; what matters below is only
that a name outside this set makes the algorithm constructor raise. -/
def ruptures_cost_models : List String :=
  ["l1", "l2", "rbf", "linear", "normal", "ar", "mahalanobis", "rank",
   "cosine", "clinear"]

/-- An oracle exhibiting the documented ruptures behaviour on cost-model
names: constructing an algorithm with an unsupported name raises
`ValueError`; on a supported name the breakpoints are produced by `f`. -/
def checking_oracle (f : RupturesCall → List Nat) : RupturesOracle :=
  fun c =>
    if c.model ∈ ruptures_cost_models then Except.ok (f c)
    else Except.error "ValueError: Not a valid cost model"

/-- The corrected form of the spec's breakpoint-count formula: truncation
toward zero (Python `int`) instead of rounding, clamped to `[1, 10]`. -/
def spec_bic_n_bkps_trunc (penalty : ℚ) : ℤ :=
  max 1 (min 10 (py_int ((10 : ℚ) / penalty)))

/-! ### Shared lemmas -/

/-- Stripping the trailing sentinel from a strictly increasing breakpoint
list whose last element is `n` leaves a strictly increasing,
duplicate-free list not containing `n`. -/
theorem strip_trailing_of_sorted {l : List Nat} {n : Nat}
    (hs : l.Sorted (· < ·)) (hl : l.getLast? = some n) :
    (strip_trailing l n).Sorted (· < ·) ∧ (strip_trailing l n).Nodup ∧
      n ∉ strip_trailing l n := by
  have hne : l ≠ [] := by
    intro h; rw [h] at hl; exact Option.noConfusion hl
  have hlast : l.getLast hne = n := by
    have h2 := List.getLast?_eq_getLast l hne
    rw [h2] at hl
    exact Option.some.inj hl
  have hdec : l.dropLast ++ [n] = l := by
    rw [← hlast]; exact List.dropLast_append_getLast hne
  rw [strip_trailing, if_pos hl]
  have hsort : l.dropLast.Sorted (· < ·) :=
    hs.sublist (List.dropLast_sublist l)
  refine ⟨hsort, hsort.imp (fun h => ne_of_lt h), fun hmem => ?_⟩
  have hpair := List.pairwise_append.mp (by rw [hdec]; exact hs)
  exact lt_irrefl n (hpair.2.2 n hmem n (List.mem_singleton_self n))

/-- Unfolding a successful dispatched branch of `detect`: the result's
`change_points` is the oracle's list with the trailing sentinel
stripped. -/
theorem run_method_ok {oracle : RupturesOracle} {d : Detector}
    {c : RupturesCall} {r : DetectResult}
    (h : run_method oracle d c = Except.ok r) :
    ∃ l, oracle c = Except.ok l ∧
      r.change_points = strip_trailing l c.signal.length := by
  unfold run_method run_detect_helper at h
  rcases ho : oracle c with e | l <;> rw [ho] at h
  · exact absurd h (by simp)
  · refine ⟨l, rfl, ?_⟩
    cases h
    rfl

/-- A method name outside the five valid ones falls through every branch
of `detect` to the unknown-method error dict (once the series is long
enough to pass the first check). -/
theorem detect_not_valid_eq (oracle : RupturesOracle) (d : Detector)
    (signal : List ℚ) (hlen : ¬ signal.length < d.min_size)
    (hnm : d.method ∉ valid_methods) :
    detect oracle d signal = Except.ok (unknown_method_error d.method) := by
  have h1 : ¬ d.method = "bic" := fun h => hnm (by rw [h]; decide)
  have h2 : ¬ d.method = "pelt" := fun h => hnm (by rw [h]; decide)
  have h3 : ¬ d.method = "binseg" := fun h => hnm (by rw [h]; decide)
  have h4 : ¬ d.method = "bottomup" := fun h => hnm (by rw [h]; decide)
  have h5 : ¬ d.method = "window" := fun h => hnm (by rw [h]; decide)
  rw [detect, if_neg hlen, if_neg h1, if_neg h2, if_neg h3, if_neg h4,
    if_neg h5]

/-- The unknown-method message does contain the substring
`"Unknown method"` (it is its head). -/
theorem str_has_unknown_method (m : String) :
    str_has ("Unknown method: " ++ m) "Unknown method" = true := by
  obtain ⟨l⟩ := m
  rfl

/-! ### Claims -/

/-- Claim C1: for every input series and each of the five recognized
methods, the `change_points` list returned by
`ChangePointDetector.detect` is strictly increasing, contains no
duplicates, and never contains an index equal to the series length: the
trailing sentinel equal to the series length is removed before
returning.  The external ruptures `predict` output is assumed to meet the
library's documented contract — a strictly increasing index list whose
last element is the number of samples. -/
theorem detect_change_points_strictly_increasing
    (oracle : RupturesOracle) (d : Detector) (signal : List ℚ)
    (r : DetectResult)
    (hm : d.method ∈ valid_methods)
    (hor : ∀ c l, c.signal = signal → oracle c = Except.ok l →
      l.Sorted (· < ·) ∧ l.getLast? = some signal.length)
    (hr : detect oracle d signal = Except.ok r) :
    r.change_points.Sorted (· < ·) ∧ r.change_points.Nodup ∧
      signal.length ∉ r.change_points := by
  have main : ∀ c : RupturesCall, c.signal = signal →
      run_method oracle d c = Except.ok r →
      r.change_points.Sorted (· < ·) ∧ r.change_points.Nodup ∧
        signal.length ∉ r.change_points := by
    intro c hc hrun
    obtain ⟨l, hol, hcp⟩ := run_method_ok hrun
    obtain ⟨hsorted, hlast⟩ := hor c l hc hol
    rw [hcp, hc]
    exact strip_trailing_of_sorted hsorted hlast
  by_cases hlen : signal.length < d.min_size
  · rw [detect, if_pos hlen] at hr
    cases hr
    simp [short_error]
  · rw [detect, if_neg hlen] at hr
    simp only [valid_methods, List.mem_cons, List.mem_singleton,
      List.not_mem_nil, or_false] at hm
    rcases hm with h | h | h | h | h <;> rw [h] at hr <;>
      simp only [reduceIte] at hr <;> exact main _ rfl hr

/-- Witness for C1: method `bic`, a length-9 constant series, and an
oracle whose predict always returns the one-element list holding the
sample count. -/
theorem detect_change_points_strictly_increasing_witness :
    ({ change_points := [], status := "success", method := some "bic",
       message := "" } : DetectResult).change_points.Sorted (· < ·) ∧
    ({ change_points := [], status := "success", method := some "bic",
       message := "" } : DetectResult).change_points.Nodup ∧
    (List.replicate 9 (0 : ℚ)).length ∉
      ({ change_points := [], status := "success", method := some "bic",
         message := "" } : DetectResult).change_points :=
  detect_change_points_strictly_increasing
    (fun c => Except.ok [c.signal.length])
    { Detector.default with method := "bic" }
    (List.replicate 9 (0 : ℚ))
    { change_points := [], status := "success", method := some "bic",
      message := "" }
    (by decide)
    (fun c l hc hok => by
      cases hok
      exact ⟨List.sorted_singleton _, by rw [hc]; rfl⟩)
    (by rfl)

/-- Counterexample to C2 as stated: with the unknown method `"made_up"`
on a series shorter than `min_size`, `detect` still returns a structured
error with an empty list, but the message is `"Time series too short"` —
it does not contain `"Unknown method"`, because the length check runs
first. -/
theorem detect_unknown_method_short_series_counterexample :
    detect (fun _ => Except.ok []) { Detector.default with method := "made_up" }
      [(1 : ℚ)] = Except.ok short_error ∧
    short_error.message = "Time series too short" ∧
    str_has short_error.message "Unknown method" = false ∧
    "made_up" ∉ valid_methods :=
  ⟨rfl, rfl, by decide, by decide⟩

/-- Claim C2 (amended): detection-stage failures are returned as a
structured result, never raised: every series with fewer than `min_size`
points yields the status-error dict with an empty `change_points` list,
and every series of length at least `min_size` with a configured method
outside the five supported names yields status `"error"`, an empty
`change_points` list and a message containing `"Unknown method"`. -/
theorem detect_structured_errors (oracle : RupturesOracle) (d : Detector)
    (signal : List ℚ) :
    (signal.length < d.min_size →
      detect oracle d signal = Except.ok short_error ∧
      short_error.status = "error" ∧ short_error.change_points = []) ∧
    (d.min_size ≤ signal.length → d.method ∉ valid_methods →
      detect oracle d signal = Except.ok (unknown_method_error d.method) ∧
      (unknown_method_error d.method).status = "error" ∧
      (unknown_method_error d.method).change_points = [] ∧
      str_has (unknown_method_error d.method).message "Unknown method"
        = true) := by
  constructor
  · intro hlen
    exact ⟨by rw [detect, if_pos hlen], rfl, rfl⟩
  · intro hlen hnm
    exact ⟨detect_not_valid_eq oracle d signal (not_lt.mpr hlen) hnm, rfl,
      rfl, str_has_unknown_method d.method⟩

/-- Witness for C2 (amended): the short-series part at the one-point
series, the unknown-method part at method `"made_up"` on a three-point
series. -/
theorem detect_structured_errors_witness :
    (detect (fun _ => Except.ok []) Detector.default [(1 : ℚ)] =
      Except.ok short_error ∧
      short_error.status = "error" ∧ short_error.change_points = []) ∧
    (detect (fun _ => Except.ok [])
        { Detector.default with method := "made_up" } [(1 : ℚ), 2, 3] =
      Except.ok (unknown_method_error "made_up") ∧
      (unknown_method_error "made_up").status = "error" ∧
      (unknown_method_error "made_up").change_points = [] ∧
      str_has (unknown_method_error "made_up").message "Unknown method"
        = true) :=
  ⟨(detect_structured_errors (fun _ => Except.ok []) Detector.default
      [(1 : ℚ)]).1 (by decide),
   (detect_structured_errors (fun _ => Except.ok [])
      { Detector.default with method := "made_up" } [(1 : ℚ), 2, 3]).2
      (by decide) (by decide)⟩

/-- Counterexample to C4 as stated: a detector with the supported method
`"pelt"` but cost model `"bogus"` on a long-enough series does not return
a structured status-error dict — the unsupported model name reaches the
ruptures constructor, whose `ValueError` propagates out of `detect` as an
exception. -/
theorem detect_bad_model_counterexample :
    detect (checking_oracle fun _ => [])
      { Detector.default with model := "bogus" } [(1 : ℚ), 2, 3, 4, 5] =
      Except.error "ValueError: Not a valid cost model" ∧
    ∀ r : DetectResult,
      detect (checking_oracle fun _ => [])
        { Detector.default with model := "bogus" } [(1 : ℚ), 2, 3, 4, 5] ≠
        Except.ok r := by
  refine ⟨rfl, fun r h => ?_⟩
  rw [show detect (checking_oracle fun _ => [])
      { Detector.default with model := "bogus" } [(1 : ℚ), 2, 3, 4, 5] =
      Except.error "ValueError: Not a valid cost model" from rfl] at h
  exact Except.noConfusion h

/-- Claim C4 (amended): `detect` performs no cost-model validation of its
own.  For every long-enough series and every supported method, a
cost-model name outside the library's supported set is passed through to
the segmentation algorithm's constructor and the exception raised there
propagates out of `detect`, instead of a structured status-error
result.  Only `set_model` enforces the model enumeration. -/
theorem detect_no_model_validation (f : RupturesCall → List Nat)
    (d : Detector) (signal : List ℚ)
    (hm : d.method ∈ valid_methods)
    (hlen : d.min_size ≤ signal.length)
    (hmodel : d.model ∉ ruptures_cost_models) :
    detect (checking_oracle f) d signal =
      Except.error "ValueError: Not a valid cost model" ∧
    ∃ e, set_model d d.model = Except.error e := by
  have herr : ∀ c : RupturesCall, c.model = d.model →
      run_method (checking_oracle f) d c =
        Except.error "ValueError: Not a valid cost model" := by
    intro c hc
    rw [run_method, run_detect_helper, checking_oracle,
      if_neg (by rw [hc]; exact hmodel)]
  have hnlt : ¬ signal.length < d.min_size := not_lt.mpr hlen
  constructor
  · rw [detect, if_neg hnlt]
    simp only [valid_methods, List.mem_cons, List.mem_singleton,
      List.not_mem_nil, or_false] at hm
    rcases hm with h | h | h | h | h <;> rw [h] <;>
      simp only [reduceIte] <;> exact herr _ rfl
  · refine ⟨"ValueError: Model must be one of valid_models", ?_⟩
    rw [set_model, if_neg ?_]
    intro hmem
    apply hmodel
    simp only [valid_models, List.mem_cons, List.mem_singleton,
      List.not_mem_nil, or_false] at hmem
    rcases hmem with h | h | h | h | h | h <;> rw [h] <;> decide

/-- Witness for C4 (amended): method `"window"`, model `"bogus"`, a
five-point series. -/
theorem detect_no_model_validation_witness :
    detect (checking_oracle fun _ => [])
      { Detector.default with method := "window", model := "bogus" }
      [(1 : ℚ), 2, 3, 4, 5] =
      Except.error "ValueError: Not a valid cost model" ∧
    ∃ e, set_model
      { Detector.default with method := "window", model := "bogus" }
      "bogus" = Except.error e :=
  detect_no_model_validation (fun _ => [])
    { Detector.default with method := "window", model := "bogus" }
    [(1 : ℚ), 2, 3, 4, 5] (by decide) (by decide) (by decide)

/-- Claim C10: the bulk setter `set_params` assigns `method` and `model`
with no validation and never raises (it is a total function), bypassing
the enumeration checks of `set_method`; and a subsequent `detect` call on
a long-enough series with such an invalid method returns the structured
Unknown-method error. -/
theorem set_params_bypasses_validation (oracle : RupturesOracle)
    (d : Detector) (v w : String) (signal : List ℚ)
    (hv : v ∉ valid_methods) (hlen : d.min_size ≤ signal.length) :
    (set_params_str d "method" v).method = v ∧
    (set_params_str d "model" w).model = w ∧
    (∃ e, set_method d v = Except.error e) ∧
    detect oracle (set_params_str d "method" v) signal =
      Except.ok (unknown_method_error v) := by
  refine ⟨rfl, rfl,
    ⟨"ValueError: Method must be one of valid_methods",
      by rw [set_method, if_neg hv]⟩, ?_⟩
  exact detect_not_valid_eq oracle (set_params_str d "method" v) signal
    (not_lt.mpr hlen) hv

/-- Witness for C10: the real misconfiguration of the repository,
`method = "sisi"`, on a three-point series. -/
theorem set_params_bypasses_validation_witness :
    (set_params_str Detector.default "method" "sisi").method = "sisi" ∧
    (set_params_str Detector.default "model" "bogus").model = "bogus" ∧
    (∃ e, set_method Detector.default "sisi" = Except.error e) ∧
    detect (fun _ => Except.ok [])
      (set_params_str Detector.default "method" "sisi") [(1 : ℚ), 2, 3] =
      Except.ok (unknown_method_error "sisi") :=
  set_params_bypasses_validation (fun _ => Except.ok []) Detector.default
    "sisi" "bogus" [(1 : ℚ), 2, 3] (by decide) (by decide)

/-- Counterexample to C5 as stated: on the constant series of value `-1`
the segment `[0:2)` has mean `-1`, the whole-window mean is `-1`, and
`-1 > -1 * 1.1 = -1.1`, so the classifier flags congestion — the claim
fails for negative constants. -/
theorem classify_segment_negative_constant_counterexample :
    classify_segment (List.replicate 4 (-1 : ℚ)) 0 2 = true := by
  norm_num [classify_segment, npMean, py_slice, List.replicate]

/-- Claim C5 (amended): for every constant-valued series of a nonnegative
constant and every pair of boundary indices delimiting a segment, the
congestion classification — segment mean exceeds the whole-window mean by
the fixed 10% relative margin — returns false. -/
theorem classify_segment_constant_false (c : ℚ) (n s e : Nat)
    (hc : 0 ≤ c) (hse : s < e) (hen : e ≤ n) :
    classify_segment (List.replicate n c) s e = false := by
  have hslice : py_slice (List.replicate n c) s e =
      List.replicate (e - s) c := by
    rw [py_slice, List.drop_replicate, List.take_replicate,
      min_eq_left (by omega : e - s ≤ n - s)]
  have hmean : ∀ k : Nat, 0 < k → npMean (List.replicate k c) = c := by
    intro k hk
    rw [npMean, List.sum_replicate, List.length_replicate, nsmul_eq_mul]
    exact mul_div_cancel_left₀ c (by exact_mod_cast hk.ne')
  rw [classify_segment, hslice, hmean (e - s) (by omega),
    hmean n (by omega)]
  simp only [decide_eq_false_iff_not, not_lt]
  nlinarith

/-- Witness for C5 (amended): the constant-5 series of length 6 and the
segment `[2:4)`. -/
theorem classify_segment_constant_false_witness :
    classify_segment (List.replicate 6 (5 : ℚ)) 2 4 = false :=
  classify_segment_constant_false 5 6 2 4 (by norm_num) (by norm_num)
    (by norm_num)

/-- Counterexample to C9 as stated: at numeric penalty `6` the code's
target breakpoint count is `max(1, min(10, int(10/6))) = 1`, while the
claimed `round(10/6)` clamped to `[1, 10]` is `2`. -/
theorem bic_n_bkps_round_counterexample :
    bic_n_bkps (Pen.num 6) 3 = 1 ∧ spec_bic_n_bkps 6 = 2 ∧ (1 : ℕ) ≠ 2 :=
  ⟨by norm_num [bic_n_bkps, py_int],
   by norm_num [spec_bic_n_bkps, round_eq],
   by decide⟩

/-- Claim C9 (amended): for the `'bic'` method, when a nonzero numeric
penalty `p` is supplied the target number of breakpoints equals
`int(10/p)` — truncation toward zero, not rounding — clamped to
`[1, 10]`, and this clamped value is what the `Dynp.predict` call
receives; when no numeric penalty is supplied the target equals the
configured `n_bkps`.  (At `p = 0` the Python division raises, which is
outside this statement.) -/
theorem bic_n_bkps_formula (q : ℚ) (k : Nat) (s : String) (d : Detector)
    (signal : List ℚ) (_hq : q ≠ 0) :
    bic_n_bkps (Pen.num q) k = (spec_bic_n_bkps_trunc q).toNat ∧
    1 ≤ spec_bic_n_bkps_trunc q ∧ spec_bic_n_bkps_trunc q ≤ 10 ∧
    (bic_call { d with penalty := Pen.num q, n_bkps := k } signal).arg =
      PredictArg.nbkps (spec_bic_n_bkps_trunc q).toNat ∧
    bic_n_bkps (Pen.str s) k = k := by
  refine ⟨rfl, le_max_left 1 _,
    max_le (by norm_num) (min_le_left 10 _), rfl, rfl⟩

/-- Witness for C9 (amended) at penalty `4` (target `int(10/4) = 2`). -/
theorem bic_n_bkps_formula_witness :
    (bic_n_bkps (Pen.num 4) 3 = (spec_bic_n_bkps_trunc 4).toNat ∧
     1 ≤ spec_bic_n_bkps_trunc 4 ∧ spec_bic_n_bkps_trunc 4 ≤ 10 ∧
     (bic_call { Detector.default with penalty := Pen.num 4, n_bkps := 3 }
        [(1 : ℚ), 2, 3]).arg =
       PredictArg.nbkps (spec_bic_n_bkps_trunc 4).toNat ∧
     bic_n_bkps (Pen.str "default") 3 = 3) ∧
    bic_n_bkps (Pen.num 4) 3 = 2 :=
  ⟨bic_n_bkps_formula 4 3 "default" Detector.default [(1 : ℚ), 2, 3]
    (by norm_num),
   by norm_num [bic_n_bkps, py_int]; rfl⟩

/-- Counterexample to C3 as stated: on the constant-5 series with
changepoints `[2, 4]` no segment is flagged congested by the classifier,
yet `analyze_congestion` on the two changepoint rows still issues one
external web-search request (and one rephrase request). -/
theorem analyze_congestion_without_congestion_counterexample :
    classify_segment (List.replicate 6 (5 : ℚ)) 2 4 = false ∧
    analyze_congestion (fun _ => "EN") (fun _ => "ZH")
      [⟨20230103, "A", 5⟩, ⟨20230105, "A", 5⟩] =
      Except.ok { text := "ZH",
                  ds_calls := [web_search_weather_news 20230105 "A"],
                  sisi_calls := ["EN"] } ∧
    [web_search_weather_news 20230105 "A"].length = 1 :=
  ⟨by norm_num [classify_segment, npMean, py_slice, List.replicate],
   rfl, rfl⟩

/-- Claim C3 (amended): `analyze_congestion` never consults the
congestion classifier — whenever the changepoint row list is nonempty it
launches the explanation chain for the last changepoint, issuing exactly
one web-search request and one rephrase request, even when every segment
between consecutive changepoints is classified not congested; the
classifier's 10% margin only decides which segments
`plot_ship_congestion` highlights. -/
theorem analyze_congestion_ignores_classifier (ds sisi : String → String)
    (values : List ℚ) (cps : List Nat) (rows : List ShipRow)
    (row : ShipRow) (hlast : rows.getLast? = some row)
    (_hnone : ∀ p ∈ cps.zip cps.tail,
      classify_segment values p.1 p.2 = false) :
    ∃ out, analyze_congestion ds sisi rows = Except.ok out ∧
      out.ds_calls.length = 1 ∧ out.sisi_calls.length = 1 := by
  rw [analyze_congestion, hlast]
  exact ⟨_, rfl, rfl, rfl⟩

/-- Witness for C3 (amended): a single changepoint row, a constant series
and changepoints `[2, 4]`, none of whose segments is congested. -/
theorem analyze_congestion_ignores_classifier_witness :
    ∃ out, analyze_congestion (fun _ => "EN") (fun _ => "ZH")
      [⟨20230105, "A", 5⟩] = Except.ok out ∧
      out.ds_calls.length = 1 ∧ out.sisi_calls.length = 1 :=
  analyze_congestion_ignores_classifier (fun _ => "EN") (fun _ => "ZH")
    (List.replicate 6 (5 : ℚ)) [2, 4] [⟨20230105, "A", 5⟩]
    ⟨20230105, "A", 5⟩ rfl
    (by
      intro p hp
      have hp2 : p = ((2 : Nat), (4 : Nat)) := List.mem_singleton.mp hp
      rw [hp2]
      norm_num [classify_segment, npMean, py_slice, List.replicate])

/-- Counterexample to C6 as stated: a store holding the channel's rows
out of date order, both inside the window; `load_window` returns them in
store order, so the result is not sorted by date ascending — nothing in
the loader sorts (the SQL query has no ORDER BY). -/
theorem load_window_unsorted_counterexample :
    load_window [⟨20230110, "A", 1⟩, ⟨20230105, "A", 2⟩] "A"
      20230101 20230131 =
      Except.ok [⟨20230110, "A", 1⟩, ⟨20230105, "A", 2⟩] ∧
    ¬ ([⟨20230110, "A", 1⟩, ⟨20230105, "A", 2⟩] : List ShipRow).Sorted
        (fun a b => a.date_id ≤ b.date_id) := by
  refine ⟨rfl, fun h => ?_⟩
  have h2 := List.rel_of_pairwise_cons h (List.mem_cons_self _ _)
  exact absurd h2 (by decide)

/-- Claim C6 (amended): `load_window` raises for a channel with zero
persisted rows anywhere; for a channel with rows it returns, without
error, the subsequence (in store order, not re-sorted) of the channel's
rows whose `date_id` lies within `[start, end]` inclusive — in
particular every returned row is inside the window, the result preserves
the persisted order, and it is empty (not an error) when all the
channel's rows fall outside the window. -/
theorem load_window_spec (store : List ShipRow) (pipe : String)
    (s e : Nat) :
    (read_sql_pipe store pipe = [] →
      load_window store pipe s e = Except.error
        ("ValueError: there is no pipe ship cnt data for " ++ pipe)) ∧
    (read_sql_pipe store pipe ≠ [] →
      load_window store pipe s e =
        Except.ok (window_filter (read_sql_pipe store pipe) s e) ∧
      (∀ r ∈ window_filter (read_sql_pipe store pipe) s e,
        s ≤ r.date_id ∧ r.date_id ≤ e) ∧
      List.Sublist (window_filter (read_sql_pipe store pipe) s e)
        (read_sql_pipe store pipe) ∧
      ((∀ r ∈ read_sql_pipe store pipe, r.date_id < s ∨ e < r.date_id) →
        window_filter (read_sql_pipe store pipe) s e = [])) := by
  constructor
  · intro h
    rw [load_window, h]
    rfl
  · intro h
    refine ⟨?_, ?_, List.filter_sublist _, ?_⟩
    · rw [load_window,
        if_neg (by rwa [ne_eq, ← List.length_eq_zero] at h)]
    · intro r hr
      have h2 := List.of_mem_filter hr
      simp only [Bool.and_eq_true, decide_eq_true_eq] at h2
      exact h2
    · intro hout
      rw [window_filter, List.filter_eq_nil_iff]
      intro r hr
      simp only [Bool.and_eq_true, decide_eq_true_eq, not_and, not_le]
      rcases hout r hr with h1 | h1
      · omega
      · omega

/-- Witness for C6 (amended), exercising all three populated-channel
conjuncts on a two-row store and the error conjunct on a store without
the channel. -/
theorem load_window_spec_witness :
    (load_window [⟨20230110, "B", 1⟩] "A" 1 2 = Except.error
      ("ValueError: there is no pipe ship cnt data for " ++ "A")) ∧
    (load_window [⟨20230110, "A", 1⟩, ⟨20200101, "A", 2⟩] "A"
        20230101 20230131 =
      Except.ok (window_filter
        (read_sql_pipe [⟨20230110, "A", 1⟩, ⟨20200101, "A", 2⟩] "A")
        20230101 20230131) ∧
     (∀ r ∈ window_filter
        (read_sql_pipe [⟨20230110, "A", 1⟩, ⟨20200101, "A", 2⟩] "A")
        20230101 20230131, 20230101 ≤ r.date_id ∧ r.date_id ≤ 20230131) ∧
     List.Sublist (window_filter
        (read_sql_pipe [⟨20230110, "A", 1⟩, ⟨20200101, "A", 2⟩] "A")
        20230101 20230131)
       (read_sql_pipe [⟨20230110, "A", 1⟩, ⟨20200101, "A", 2⟩] "A") ∧
     ((∀ r ∈ read_sql_pipe [⟨20230110, "A", 1⟩, ⟨20200101, "A", 2⟩] "A",
        r.date_id < 20230101 ∨ 20230131 < r.date_id) →
       window_filter
         (read_sql_pipe [⟨20230110, "A", 1⟩, ⟨20200101, "A", 2⟩] "A")
         20230101 20230131 = [])) :=
  ⟨(load_window_spec [⟨20230110, "B", 1⟩] "A" 1 2).1 (by rfl),
   (load_window_spec [⟨20230110, "A", 1⟩, ⟨20200101, "A", 2⟩] "A"
      20230101 20230131).2 (by simp [read_sql_pipe])⟩

/-- Claim C7 is false of the code (a code bug): when the channel has
persisted rows but none inside the window, `pipe_detect_engine` skips the
channel and returns a dict with no entry for it, and
`trigger_traffic_detect` then crashes with `KeyError` instead of
completing with a "nothing to analyze" outcome.  This theorem evaluates
the pipeline at such an input. -/
theorem trigger_traffic_detect_out_of_window_crashes :
    read_sql_pipe [⟨20200101, "A", 5⟩] "A" ≠ [] ∧
    window_filter (read_sql_pipe [⟨20200101, "A", 5⟩] "A")
      20231201 20231231 = [] ∧
    trigger_traffic_detect (fun _ => "EN") (fun _ => "ZH")
      [⟨20200101, "A", 5⟩] "A" 20231201 20231231 =
      Except.error ("KeyError: " ++ "A") :=
  ⟨by decide, rfl, rfl⟩

/-- Claim C8: for every detected event, the explanation chain issues
exactly one request to the web-search service, then exactly one request
to the rephrase service whose question is the first answer forwarded
verbatim, and returns only the rephrase service's text with any
`<think>…</think>` block stripped. -/
theorem analyze_congestion_chain (ds sisi : String → String)
    (rows : List ShipRow) (row : ShipRow)
    (hlast : rows.getLast? = some row) :
    analyze_congestion ds sisi rows = Except.ok
      { text := remove_think_tag
          (sisi (ds (web_search_weather_news row.date_id row.pipe_name))),
        ds_calls := [web_search_weather_news row.date_id row.pipe_name],
        sisi_calls :=
          [ds (web_search_weather_news row.date_id row.pipe_name)] } := by
  rw [analyze_congestion, hlast]

/-- Witness for C8: the event (2023-12-31, "曼德海峡"); the rephrase
service answers with a `<think>` block, which is stripped from the
returned text. -/
theorem analyze_congestion_chain_witness :
    analyze_congestion (fun _ => "EN answer")
      (fun _ => "<think>reasoning</think> 中文摘要")
      [⟨20231231, "曼德海峡", 5⟩] = Except.ok
      { text := "中文摘要",
        ds_calls := [web_search_weather_news 20231231 "曼德海峡"],
        sisi_calls := ["EN answer"] } :=
  Eq.trans
    (analyze_congestion_chain (fun _ => "EN answer")
      (fun _ => "<think>reasoning</think> 中文摘要")
      [⟨20231231, "曼德海峡", 5⟩] ⟨20231231, "曼德海峡", 5⟩ rfl)
    (by rfl)

end SisiMcp
